import Mathlib

/-!
Verification development for the rnacos persistent Raft index store
(src/raft/filestore/raftindex.rs).

The development shallowly embeds the index manager: the on-disk index file is
a list of byte values (each a Nat), file mutation is modelled by replaying the
exact sequence of seek/write/flush operations the source performs, and the
actor's request handler is a pure function from a manager state and a request
to a new state, a result, and the list of file operations performed.

Code of the repository that is referenced by raftindex.rs but whose source is
not part of this repository snapshot (the protobuf catalog types in
super::log / super::model, crate::common::byte_utils, and
crate::common::protobuf_utils::FileMessageReader) is modelled from the
specification; each such definition carries a doc comment saying so.
-/

namespace Rnacos

/-! ## Byte-level primitives -/

/-- Big-endian fixed-width byte encoding of a natural number: the byte list of
length w holding n modulo 256^w, most significant byte first. -/
def beBytes : Nat → Nat → List Nat
  | 0, _ => []
  | w + 1, n => (n / 256 ^ w % 256) :: beBytes w n

/-- Big-endian value of a byte list. -/
def beVal (bs : List Nat) : Nat :=
  bs.foldl (fun a b => a * 256 + b) 0

/-- Modelled from the spec: crate::common::byte_utils is not under src/;
per spec section 6 the 8-byte header is a big-endian u64. -/
def id_to_bin (n : Nat) : List Nat := beBytes 8 n

/-- Modelled from the spec: crate::common::byte_utils is not under src/;
decodes an 8-byte big-endian u64. -/
def bin_to_id (bs : List Nat) : Nat := beVal bs

/-- Take exactly k bytes from the front of a stream, failing on a short
stream; returns the taken bytes and the rest. -/
def takeN (k : Nat) (bs : List Nat) : Option (List Nat × List Nat) :=
  if k ≤ bs.length then some (bs.take k, bs.drop k) else none

/-- Overwrite the bytes of a file starting at a given position, zero-filling
any gap and keeping any bytes after the written region (POSIX pwrite
semantics, as performed by seek-then-write in the source). -/
def writeAt (c : List Nat) (pos : Nat) (d : List Nat) : List Nat :=
  c.take pos ++ List.replicate (pos - c.length) 0 ++ d ++ c.drop (pos + d.length)

/-- One operation on the open index file handle. -/
inductive FileOp where
  | seek (pos : Nat)
  | write (data : List Nat)
  | flush
deriving DecidableEq

/-- Replay a sequence of file operations over (contents, cursor). -/
def replayOps : List FileOp → (List Nat × Nat) → (List Nat × Nat)
  | [], s => s
  | FileOp.seek p :: rest, s => replayOps rest (s.1, p)
  | FileOp.write d :: rest, s => replayOps rest (writeAt s.1 s.2 d, s.2 + d.length)
  | FileOp.flush :: rest, s => replayOps rest s

/-- True when every write in the operation list is followed (later in the
list) by a flush: the file is flushed after the last write. -/
def endsFlushed (ops : List FileOp) : Bool :=
  ops.foldl
    (fun acc op =>
      match op with
      | FileOp.write _ => false
      | FileOp.flush => true
      | FileOp.seek _ => acc)
    true

/-! ## Data model

Modelled from the spec: the catalog types live in super::log and super::model,
which are not under src/; spec section 3 gives their exact fields. -/

/-- Node address: the byte content of the Arc String address value. -/
abbrev Addr : Type := List Nat

/-- Modelled from the spec: one log segment descriptor (spec section 3,
LogRange). -/
structure LogRange where
  id : Nat
  start_index : Nat
  pre_term : Nat
  record_count : Nat
  is_close : Bool
  mark_remove : Bool
deriving DecidableEq

/-- Modelled from the spec: one snapshot descriptor (spec section 3,
SnapshotRange). -/
structure SnapshotRange where
  id : Nat
  last_included_index : Nat
  last_included_term : Nat
deriving DecidableEq

/-- Modelled from the spec: the in-memory catalog (spec section 3,
RaftIndexDto); the node-address map is modelled as an association list. -/
structure RaftIndexDto where
  current_term : Nat
  voted_for : Nat
  member : List Nat
  member_after_consensus : List Nat
  node_addrs : List (Nat × Addr)
  logs : List LogRange
  snapshots : List SnapshotRange
deriving DecidableEq

/-- HashMap::insert: upsert a key in the node-address map. -/
def addrInsert (l : List (Nat × Addr)) (k : Nat) (v : Addr) : List (Nat × Addr) :=
  (k, v) :: l.filter (fun p => p.1 != k)

/-- HashMap::get: look up a key in the node-address map. -/
def addrGet (l : List (Nat × Addr)) (k : Nat) : Option Addr :=
  (l.find? (fun p => p.1 == k)).map (fun p => p.2)

/-! ## Catalog serialization

Modelled from the spec: the wire encoding of the catalog (performed in the
source by quick_protobuf over the RaftIndex message type, which is not under
src/) is modelled as a stable field-ordered encoding; spec sections 6 and 8
require only a stable encoding whose decode is a left inverse of encode. -/

/-- Encode a u64 field. -/
def encU64 (n : Nat) : List Nat := beBytes 8 n

/-- Encode a bool field as one byte. -/
def encBool (b : Bool) : List Nat := [if b then 1 else 0]

/-- Encode a length-prefixed byte field. -/
def encBytes (a : List Nat) : List Nat := beBytes 8 a.length ++ a

/-- Concatenate the encodings of the elements of a list. -/
def encListBy (enc : α → List Nat) : List α → List Nat
  | [] => []
  | x :: xs => enc x ++ encListBy enc xs

/-- Encode a count-prefixed repeated field. -/
def encList (enc : α → List Nat) (l : List α) : List Nat :=
  beBytes 8 l.length ++ encListBy enc l

/-- Decode a u64 field. -/
def decU64 (bs : List Nat) : Option (Nat × List Nat) :=
  match takeN 8 bs with
  | none => none
  | some (w, r) => some (beVal w, r)

/-- Decode a bool field. -/
def decBool : List Nat → Option (Bool × List Nat)
  | [] => none
  | b :: r => some (b == 1, r)

/-- Decode a length-prefixed byte field. -/
def decBytes (bs : List Nat) : Option (List Nat × List Nat) :=
  match decU64 bs with
  | none => none
  | some (n, r) => takeN n r

/-- Decode exactly k consecutive elements. -/
def decManyBy (dec : List Nat → Option (α × List Nat)) :
    Nat → List Nat → Option (List α × List Nat)
  | 0, bs => some ([], bs)
  | k + 1, bs =>
    match dec bs with
    | none => none
    | some (x, r) =>
      match decManyBy dec k r with
      | none => none
      | some (xs, r2) => some (x :: xs, r2)

/-- Decode a count-prefixed repeated field. -/
def decList (dec : List Nat → Option (α × List Nat)) (bs : List Nat) :
    Option (List α × List Nat) :=
  match decU64 bs with
  | none => none
  | some (n, r) => decManyBy dec n r

/-- Encode one LogRange. -/
def encLogRange (r : LogRange) : List Nat :=
  encU64 r.id ++ encU64 r.start_index ++ encU64 r.pre_term ++
    encU64 r.record_count ++ encBool r.is_close ++ encBool r.mark_remove

/-- Decode one LogRange. -/
def decLogRange (bs : List Nat) : Option (LogRange × List Nat) :=
  match decU64 bs with
  | none => none
  | some (i, r1) =>
    match decU64 r1 with
    | none => none
    | some (si, r2) =>
      match decU64 r2 with
      | none => none
      | some (pt, r3) =>
        match decU64 r3 with
        | none => none
        | some (rc, r4) =>
          match decBool r4 with
          | none => none
          | some (ic, r5) =>
            match decBool r5 with
            | none => none
            | some (mr, r6) => some (⟨i, si, pt, rc, ic, mr⟩, r6)

/-- Encode one SnapshotRange. -/
def encSnapshotRange (s : SnapshotRange) : List Nat :=
  encU64 s.id ++ encU64 s.last_included_index ++ encU64 s.last_included_term

/-- Decode one SnapshotRange. -/
def decSnapshotRange (bs : List Nat) : Option (SnapshotRange × List Nat) :=
  match decU64 bs with
  | none => none
  | some (i, r1) =>
    match decU64 r1 with
    | none => none
    | some (li, r2) =>
      match decU64 r2 with
      | none => none
      | some (lt, r3) => some (⟨i, li, lt⟩, r3)

/-- Encode one node-address entry. -/
def encAddrEntry (p : Nat × Addr) : List Nat :=
  encU64 p.1 ++ encBytes p.2

/-- Decode one node-address entry. -/
def decAddrEntry (bs : List Nat) : Option ((Nat × Addr) × List Nat) :=
  match decU64 bs with
  | none => none
  | some (k, r1) =>
    match decBytes r1 with
    | none => none
    | some (a, r2) => some ((k, a), r2)

/-- Encode the whole catalog. -/
def encDto (d : RaftIndexDto) : List Nat :=
  encU64 d.current_term ++ encU64 d.voted_for ++
    encList encU64 d.member ++ encList encU64 d.member_after_consensus ++
    encList encAddrEntry d.node_addrs ++ encList encLogRange d.logs ++
    encList encSnapshotRange d.snapshots

/-- Decode the whole catalog. -/
def decDto (bs : List Nat) : Option (RaftIndexDto × List Nat) :=
  match decU64 bs with
  | none => none
  | some (ct, r1) =>
    match decU64 r1 with
    | none => none
    | some (vf, r2) =>
      match decList decU64 r2 with
      | none => none
      | some (mem, r3) =>
        match decList decU64 r3 with
        | none => none
        | some (mac, r4) =>
          match decList decAddrEntry r4 with
          | none => none
          | some (na, r5) =>
            match decList decLogRange r5 with
            | none => none
            | some (lg, r6) =>
              match decList decSnapshotRange r6 with
              | none => none
              | some (sn, r7) => some (⟨ct, vf, mem, mac, na, lg, sn⟩, r7)

/-- Decode a catalog record payload, as the source's
reader.read_message does over the framed buffer. -/
def decodeCatalog (bs : List Nat) : Option RaftIndexDto :=
  match decDto bs with
  | none => none
  | some (d, _) => some d

/-- The framed catalog record written at byte 8 of the index file: a 32-bit
big-endian length followed by the serialized catalog (spec section 6). -/
def recordBytes (d : RaftIndexDto) : List Nat :=
  beBytes 4 (encDto d).length ++ encDto d

/-- Modelled from the spec: FileMessageReader (crate::common::protobuf_utils)
is not under src/; per spec sections 4.1 and 6 it reads one record framed as a
32-bit big-endian length N followed by N bytes, failing on a short header or
body. -/
def readRecord (bs : List Nat) : Option (List Nat) :=
  match takeN 4 bs with
  | none => none
  | some (lenB, r) =>
    match takeN (beVal lenB) r with
    | none => none
    | some (payload, _) => some payload

/-! ## Well-formedness: values representable in the source's u64 fields -/

/-- Bounds making a LogRange representable with u64 fields. -/
abbrev WfLogRange (r : LogRange) : Prop :=
  r.id < 2 ^ 64 ∧ r.start_index < 2 ^ 64 ∧ r.pre_term < 2 ^ 64 ∧
    r.record_count < 2 ^ 64

/-- Bounds making a SnapshotRange representable with u64 fields. -/
abbrev WfSnapshotRange (s : SnapshotRange) : Prop :=
  s.id < 2 ^ 64 ∧ s.last_included_index < 2 ^ 64 ∧ s.last_included_term < 2 ^ 64

/-- Bounds making a node-address entry representable. -/
abbrev WfAddrEntry (p : Nat × Addr) : Prop :=
  p.1 < 2 ^ 64 ∧ p.2.length < 2 ^ 64

/-- Bounds making the whole catalog representable with u64 fields and
u64-bounded collection sizes. -/
abbrev WfDto (d : RaftIndexDto) : Prop :=
  d.current_term < 2 ^ 64 ∧ d.voted_for < 2 ^ 64 ∧
    d.member.length < 2 ^ 64 ∧ (∀ x ∈ d.member, x < 2 ^ 64) ∧
    d.member_after_consensus.length < 2 ^ 64 ∧
    (∀ x ∈ d.member_after_consensus, x < 2 ^ 64) ∧
    d.node_addrs.length < 2 ^ 64 ∧ (∀ p ∈ d.node_addrs, WfAddrEntry p) ∧
    d.logs.length < 2 ^ 64 ∧ (∀ r ∈ d.logs, WfLogRange r) ∧
    d.snapshots.length < 2 ^ 64 ∧ (∀ s ∈ d.snapshots, WfSnapshotRange s)

/-! ## RaftIndexInnerManager (raftindex.rs lines 20-95) -/

/-- The inner manager: the open index file's contents plus the in-memory
catalog and last applied log (raftindex.rs lines 20-24; the cursor is not
stored because every operation seeks before writing). -/
structure RaftIndexInnerManager where
  contents : List Nat
  raft_index : RaftIndexDto
  last_applied_log : Nat
deriving DecidableEq

/-- The catalog written on first boot: RaftIndex::default() with one empty
segment pushed (raftindex.rs lines 38-46). -/
def freshRaftIndex : RaftIndexDto :=
  { current_term := 0
    voted_for := 0
    member := []
    member_after_consensus := []
    node_addrs := []
    logs := [{ id := 0, start_index := 0, pre_term := 0, record_count := 0,
               is_close := false, mark_remove := false }]
    snapshots := [] }

/-- File operations performed by init on a zero-length file: write the 8-byte
zero header, write the framed catalog record, flush (raftindex.rs
lines 50-53). -/
def initOps : List FileOp :=
  [FileOp.write (id_to_bin 0), FileOp.write (recordBytes freshRaftIndex),
    FileOp.flush]

/-- The inner manager produced by init on a zero-length file. -/
def freshInner : RaftIndexInnerManager :=
  { contents := (replayOps initOps ([], 0)).1
    raft_index := freshRaftIndex
    last_applied_log := 0 }

/-- RaftIndexInnerManager::init (raftindex.rs lines 27-75): on a zero-length
file, write the fresh catalog; otherwise read the 8-byte header (the read
leaves trailing zeros in the buffer on a short file) and one framed catalog
record starting at byte 8, and decode it. -/
def RaftIndexInnerManager.init (file : List Nat) :
    Except String RaftIndexInnerManager :=
  if file.length = 0 then
    Except.ok freshInner
  else
    let header := file.take 8 ++ List.replicate (8 - file.length) 0
    match readRecord (file.drop 8) with
    | none => Except.error "read index message error"
    | some buf =>
      match decodeCatalog buf with
      | none => Except.error "decode raft index error"
      | some d =>
        Except.ok { contents := file, raft_index := d,
                    last_applied_log := bin_to_id header }

/-- File operations of write_last_applied_log: seek to 0 and write the 8-byte
big-endian value; no flush (raftindex.rs lines 77-82). -/
def writeLastAppliedOps (n : Nat) : List FileOp :=
  [FileOp.seek 0, FileOp.write (id_to_bin n)]

/-- File operations of write_index: seek to 8, write the framed catalog
record, flush (raftindex.rs lines 84-94); the file is not truncated. -/
def writeIndexOps (d : RaftIndexDto) : List FileOp :=
  [FileOp.seek 8, FileOp.write (recordBytes d), FileOp.flush]

/-- RaftIndexInnerManager::write_last_applied_log (raftindex.rs lines 77-82):
set the in-memory value, then seek to 0 and overwrite the 8-byte header. -/
def RaftIndexInnerManager.write_last_applied_log (m : RaftIndexInnerManager)
    (n : Nat) : RaftIndexInnerManager :=
  { contents := (replayOps (writeLastAppliedOps n) (m.contents, 0)).1
    raft_index := m.raft_index
    last_applied_log := n }

/-- RaftIndexInnerManager::write_index (raftindex.rs lines 84-94): set the
in-memory catalog, then seek to 8, rewrite the framed catalog record in
place, and flush. -/
def RaftIndexInnerManager.write_index (m : RaftIndexInnerManager)
    (d : RaftIndexDto) : RaftIndexInnerManager :=
  { contents := (replayOps (writeIndexOps d) (m.contents, 0)).1
    raft_index := d
    last_applied_log := m.last_applied_log }

/-! ## RaftIndexManager actor (raftindex.rs lines 97-394) -/

/-- The request enum (raftindex.rs lines 300-321). -/
inductive RaftIndexRequest where
  | LoadIndexInfo
  | LoadHardState
  | LoadMember
  | GetTargetAddr (id : Nat)
  | SaveLogs (logs : List LogRange)
  | SaveSnapshots (snapshots : List SnapshotRange)
  | SaveLastAppliedLog (n : Nat)
  | SaveMember (member : List Nat) (member_after_consensus : List Nat)
      (node_addr : Option (List (Nat × Addr)))
  | SaveNodeAddr (node_addr : List (Nat × Addr))
  | AddNodeAddr (id : Nat) (addr : Addr)
  | SaveHardState (current_term : Nat) (voted_for : Nat)
deriving DecidableEq

/-- The response enum (raftindex.rs lines 323-339). -/
inductive RaftIndexResponse where
  | None
  | RaftIndexInfo (raft_index : RaftIndexDto) (last_applied_log : Nat)
  | HardState (current_term : Nat) (voted_for : Nat)
  | MemberShip (member : List Nat) (member_after_consensus : List Nat)
      (node_addrs : List (Nat × Addr))
  | TargetAddr (addr : Option Addr)
deriving DecidableEq

/-- The actor state (raftindex.rs lines 97-100): the optional inner manager;
stopped models ctx.stop(), called only when init fails (lines 114-122). -/
structure RaftIndexManager where
  inner : Option RaftIndexInnerManager
  stopped : Bool
deriving DecidableEq

/-- The error produced when a request arrives before init has populated the
inner manager (raftindex.rs lines 126-128). -/
def innerIsEmptyError : String := "inner is empty"

deriving instance DecidableEq for Except

/-- Result of handling one request: the new actor state, the value returned
to the caller, and the file operations performed. The fault flag injects an
I/O failure into the underlying file operations: the in-memory assignments in
the source precede the first file await, so they survive the failure, while
the file is left unchanged and the error is only logged (raftindex.rs
lines 150-165 and 178-193). -/
structure HandleOut where
  state : RaftIndexManager
  result : Except String RaftIndexResponse
  ops : List FileOp
deriving DecidableEq

/-- RaftIndexManager::load_index_info (raftindex.rs lines 130-139). -/
def RaftIndexManager.load_index_info (s : RaftIndexManager) : HandleOut :=
  match s.inner with
  | none => ⟨s, Except.error innerIsEmptyError, []⟩
  | some m =>
    ⟨s, Except.ok (RaftIndexResponse.RaftIndexInfo m.raft_index
        m.last_applied_log), []⟩

/-- RaftIndexManager::write_last_applied_log (raftindex.rs lines 141-167):
errors only when the inner manager is absent; an I/O failure is logged and
the request still returns Ok(None). -/
def RaftIndexManager.write_last_applied_log (fault : Bool)
    (s : RaftIndexManager) (n : Nat) : HandleOut :=
  match s.inner with
  | none => ⟨s, Except.error innerIsEmptyError, []⟩
  | some m =>
    if fault then
      ⟨{ s with inner := some { m with last_applied_log := n } },
        Except.ok RaftIndexResponse.None, []⟩
    else
      ⟨{ s with inner := some (m.write_last_applied_log n) },
        Except.ok RaftIndexResponse.None, writeLastAppliedOps n⟩

/-- RaftIndexManager::write_index (raftindex.rs lines 169-195): errors only
when the inner manager is absent; an I/O failure is logged and the request
still returns Ok(None). -/
def RaftIndexManager.write_index (fault : Bool) (s : RaftIndexManager)
    (index : RaftIndexDto) : HandleOut :=
  match s.inner with
  | none => ⟨s, Except.error innerIsEmptyError, []⟩
  | some m =>
    if fault then
      ⟨{ s with inner := some { m with raft_index := index } },
        Except.ok RaftIndexResponse.None, []⟩
    else
      ⟨{ s with inner := some (m.write_index index) },
        Except.ok RaftIndexResponse.None, writeIndexOps index⟩

/-- RaftIndexManager::write_logs (raftindex.rs lines 197-209): replace the
segment list in the in-memory catalog and rewrite the catalog record. -/
def RaftIndexManager.write_logs (fault : Bool) (s : RaftIndexManager)
    (logs : List LogRange) : HandleOut :=
  match s.inner with
  | none => ⟨s, Except.error innerIsEmptyError, []⟩
  | some m =>
    let d := { m.raft_index with logs := logs }
    RaftIndexManager.write_index fault { s with inner := some { m with raft_index := d } } d

/-- RaftIndexManager::write_snapshots (raftindex.rs lines 211-223). -/
def RaftIndexManager.write_snapshots (fault : Bool) (s : RaftIndexManager)
    (snapshots : List SnapshotRange) : HandleOut :=
  match s.inner with
  | none => ⟨s, Except.error innerIsEmptyError, []⟩
  | some m =>
    let d := { m.raft_index with snapshots := snapshots }
    RaftIndexManager.write_index fault { s with inner := some { m with raft_index := d } } d

/-- RaftIndexManager::write_member (raftindex.rs lines 225-243): replace
member and member_after_consensus, replace node_addrs only when the optional
map is present, and rewrite the catalog record. -/
def RaftIndexManager.write_member (fault : Bool) (s : RaftIndexManager)
    (member : List Nat) (member_after_consensus : List Nat)
    (node_addr : Option (List (Nat × Addr))) : HandleOut :=
  match s.inner with
  | none => ⟨s, Except.error innerIsEmptyError, []⟩
  | some m =>
    let d := { m.raft_index with
                member := member
                member_after_consensus := member_after_consensus
                node_addrs := match node_addr with
                  | some na => na
                  | none => m.raft_index.node_addrs }
    RaftIndexManager.write_index fault { s with inner := some { m with raft_index := d } } d

/-- RaftIndexManager::write_node_addr (raftindex.rs lines 245-257). -/
def RaftIndexManager.write_node_addr (fault : Bool) (s : RaftIndexManager)
    (node_addr : List (Nat × Addr)) : HandleOut :=
  match s.inner with
  | none => ⟨s, Except.error innerIsEmptyError, []⟩
  | some m =>
    let d := { m.raft_index with node_addrs := node_addr }
    RaftIndexManager.write_index fault { s with inner := some { m with raft_index := d } } d

/-- RaftIndexManager::add_node_addr (raftindex.rs lines 259-272). -/
def RaftIndexManager.add_node_addr (fault : Bool) (s : RaftIndexManager)
    (id : Nat) (addr : Addr) : HandleOut :=
  match s.inner with
  | none => ⟨s, Except.error innerIsEmptyError, []⟩
  | some m =>
    let d := { m.raft_index with
                node_addrs := addrInsert m.raft_index.node_addrs id addr }
    RaftIndexManager.write_index fault { s with inner := some { m with raft_index := d } } d

/-- RaftIndexManager::write_hard_state (raftindex.rs lines 274-288): set
current_term and voted_for unconditionally and rewrite the catalog record. -/
def RaftIndexManager.write_hard_state (fault : Bool) (s : RaftIndexManager)
    (current_term : Nat) (voted_for : Nat) : HandleOut :=
  match s.inner with
  | none => ⟨s, Except.error innerIsEmptyError, []⟩
  | some m =>
    let d := { m.raft_index with
                current_term := current_term
                voted_for := voted_for }
    RaftIndexManager.write_index fault { s with inner := some { m with raft_index := d } } d

/-- The Handler impl (raftindex.rs lines 341-393). -/
def RaftIndexManager.handle (fault : Bool) (s : RaftIndexManager)
    (req : RaftIndexRequest) : HandleOut :=
  match req with
  | RaftIndexRequest.LoadIndexInfo => s.load_index_info
  | RaftIndexRequest.SaveSnapshots snapshots =>
      RaftIndexManager.write_snapshots fault s snapshots
  | RaftIndexRequest.SaveLastAppliedLog n =>
      RaftIndexManager.write_last_applied_log fault s n
  | RaftIndexRequest.SaveLogs logs => RaftIndexManager.write_logs fault s logs
  | RaftIndexRequest.SaveMember member mac node_addr =>
      RaftIndexManager.write_member fault s member mac node_addr
  | RaftIndexRequest.SaveNodeAddr node_addr =>
      RaftIndexManager.write_node_addr fault s node_addr
  | RaftIndexRequest.AddNodeAddr id addr =>
      RaftIndexManager.add_node_addr fault s id addr
  | RaftIndexRequest.SaveHardState current_term voted_for =>
      RaftIndexManager.write_hard_state fault s current_term voted_for
  | RaftIndexRequest.LoadHardState =>
    match s.inner with
    | some m =>
      ⟨s, Except.ok (RaftIndexResponse.HardState m.raft_index.current_term
          m.raft_index.voted_for), []⟩
    | none => ⟨s, Except.ok RaftIndexResponse.None, []⟩
  | RaftIndexRequest.LoadMember =>
    match s.inner with
    | some m =>
      ⟨s, Except.ok (RaftIndexResponse.MemberShip m.raft_index.member
          m.raft_index.member_after_consensus m.raft_index.node_addrs), []⟩
    | none => ⟨s, Except.ok RaftIndexResponse.None, []⟩
  | RaftIndexRequest.GetTargetAddr id =>
    let addr := match s.inner with
      | some m => addrGet m.raft_index.node_addrs id
      | none => none
    ⟨s, Except.ok (RaftIndexResponse.TargetAddr addr), []⟩

/-- RaftIndexManager::init (raftindex.rs lines 107-124): run the inner init
on the file and either store the inner manager or stop the actor. -/
def RaftIndexManager.initFrom (file : List Nat) : RaftIndexManager :=
  match RaftIndexInnerManager.init file with
  | Except.ok m => { inner := some m, stopped := false }
  | Except.error _ => { inner := none, stopped := true }

/-- True for the requests that mutate state (the Save and Add requests). -/
def isMutating : RaftIndexRequest → Bool
  | RaftIndexRequest.SaveLogs _ => true
  | RaftIndexRequest.SaveSnapshots _ => true
  | RaftIndexRequest.SaveLastAppliedLog _ => true
  | RaftIndexRequest.SaveMember _ _ _ => true
  | RaftIndexRequest.SaveNodeAddr _ => true
  | RaftIndexRequest.AddNodeAddr _ _ => true
  | RaftIndexRequest.SaveHardState _ _ => true
  | _ => false

/-- True only for SaveLastAppliedLog. -/
def isSaveLastAppliedLog : RaftIndexRequest → Bool
  | RaftIndexRequest.SaveLastAppliedLog _ => true
  | _ => false

/-- The inner-manager states reachable by successful operations from a fresh
init. -/
inductive Reach : RaftIndexInnerManager → Prop where
  | fresh : Reach freshInner
  | stepIndex (d : RaftIndexDto) {m : RaftIndexInnerManager} :
      Reach m → Reach (m.write_index d)
  | stepLast (n : Nat) {m : RaftIndexInnerManager} :
      Reach m → Reach (m.write_last_applied_log n)

/-- Spec-side checker for invariant 1 of spec section 3: consecutive segments
A, B satisfy B.start_index = A.start_index + A.record_count. Follows the
spec's words; the source contains no such check. -/
def specSegmentsContiguous : List LogRange → Bool
  | [] => true
  | [_] => true
  | a :: b :: rest =>
    (b.start_index == a.start_index + a.record_count) &&
      specSegmentsContiguous (b :: rest)

/-! ## Concrete inputs used by counterexamples and witnesses -/

/-- The manager right after a fresh init on a zero-length file. -/
def initManager : RaftIndexManager := RaftIndexManager.initFrom []

/-- Run of SaveHardState with current_term 5. -/
def hsRun1 : HandleOut :=
  RaftIndexManager.handle false initManager (RaftIndexRequest.SaveHardState 5 2)

/-- Run of SaveHardState with the smaller current_term 4 after hsRun1. -/
def hsRun2 : HandleOut :=
  RaftIndexManager.handle false hsRun1.state (RaftIndexRequest.SaveHardState 4 0)

/-- A segment list breaking invariant 1: the second segment starts at 99
instead of 0 + 5. -/
def badLogs : List LogRange :=
  [{ id := 0, start_index := 0, pre_term := 0, record_count := 5,
     is_close := true, mark_remove := false },
   { id := 1, start_index := 99, pre_term := 1, record_count := 0,
     is_close := false, mark_remove := false }]

/-- Run of SaveLogs with the invariant-breaking list. -/
def badLogsRun : HandleOut :=
  RaftIndexManager.handle false initManager (RaftIndexRequest.SaveLogs badLogs)

/-- Run of SaveLastAppliedLog 5. -/
def lalRun1 : HandleOut :=
  RaftIndexManager.handle false initManager (RaftIndexRequest.SaveLastAppliedLog 5)

/-- Run of SaveLastAppliedLog with the smaller value 3 after lalRun1. -/
def lalRun2 : HandleOut :=
  RaftIndexManager.handle false lalRun1.state (RaftIndexRequest.SaveLastAppliedLog 3)

/-- A catalog with two log segments, whose serialized record is longer than
the fresh catalog's. -/
def dtoTwoLogs : RaftIndexDto :=
  { freshRaftIndex with
      logs := [{ id := 0, start_index := 0, pre_term := 0, record_count := 100,
                 is_close := true, mark_remove := false },
               { id := 1, start_index := 100, pre_term := 1, record_count := 0,
                 is_close := false, mark_remove := false }] }

/-- Inner manager after writing the two-segment catalog and then rewriting
the shorter fresh catalog: the file keeps a stale tail. -/
def staleInner : RaftIndexInnerManager :=
  (freshInner.write_index dtoTwoLogs).write_index freshRaftIndex

/-- A small nontrivial catalog exercising every field of the encoding. -/
def sampleDto : RaftIndexDto :=
  { current_term := 3
    voted_for := 2
    member := [1, 2]
    member_after_consensus := [3]
    node_addrs := [(1, [104, 111, 115, 116]), (2, [])]
    logs := [{ id := 0, start_index := 0, pre_term := 0, record_count := 4,
               is_close := true, mark_remove := false },
             { id := 1, start_index := 4, pre_term := 2, record_count := 0,
               is_close := false, mark_remove := true }]
    snapshots := [{ id := 1, last_included_index := 9, last_included_term := 2 }] }

set_option maxRecDepth 8192

/-! ## Byte-level lemmas -/

theorem beBytes_length (w n : Nat) : (beBytes w n).length = w := by
  induction w generalizing n with
  | zero => rfl
  | succ w ih => simp [beBytes, ih]

theorem beVal_foldl (w n a : Nat) :
    (beBytes w n).foldl (fun x b => x * 256 + b) a = a * 256 ^ w + n % 256 ^ w := by
  induction w generalizing a with
  | zero => simp [beBytes, beVal, Nat.mod_one]
  | succ w ih =>
    simp only [beBytes, List.foldl_cons]
    rw [ih]
    have h : n % 256 ^ (w + 1) = n % 256 ^ w + 256 ^ w * (n / 256 ^ w % 256) := by
      rw [pow_succ]
      exact Nat.mod_mul
    rw [h]
    ring

theorem beVal_beBytes (w n : Nat) : beVal (beBytes w n) = n % 256 ^ w := by
  simpa [beVal] using beVal_foldl w n 0

theorem beVal_beBytes8 {n : Nat} (h : n < 2 ^ 64) : beVal (beBytes 8 n) = n := by
  rw [beVal_beBytes]
  have h8 : (256 : Nat) ^ 8 = 2 ^ 64 := by norm_num
  rw [h8]
  exact Nat.mod_eq_of_lt h

theorem beVal_beBytes4 {n : Nat} (h : n < 2 ^ 32) : beVal (beBytes 4 n) = n := by
  rw [beVal_beBytes]
  have h4 : (256 : Nat) ^ 4 = 2 ^ 32 := by norm_num
  rw [h4]
  exact Nat.mod_eq_of_lt h

theorem id_to_bin_length (n : Nat) : (id_to_bin n).length = 8 :=
  beBytes_length 8 n

theorem takeN_pre {k : Nat} (bs rest : List Nat) (h : bs.length = k) :
    takeN k (bs ++ rest) = some (bs, rest) := by
  subst h
  rw [takeN, if_pos (by simp)]
  rw [List.take_left, List.drop_left]

theorem decU64_cons {n : Nat} (h : n < 2 ^ 64) (rest : List Nat) :
    decU64 (beBytes 8 n ++ rest) = some (n, rest) := by
  simp only [decU64]
  rw [takeN_pre _ _ (beBytes_length 8 n)]
  simp [beVal_beBytes8 h]

theorem decBool_enc (b : Bool) (rest : List Nat) :
    decBool (encBool b ++ rest) = some (b, rest) := by
  cases b <;> rfl

theorem decBytes_enc {a : List Nat} (h : a.length < 2 ^ 64) (rest : List Nat) :
    decBytes (encBytes a ++ rest) = some (a, rest) := by
  simp only [decBytes, encBytes, List.append_assoc]
  rw [decU64_cons h]
  exact takeN_pre a rest rfl

theorem decManyBy_enc {α : Type} (dec : List Nat → Option (α × List Nat))
    (enc : α → List Nat) (l : List α)
    (H : ∀ x ∈ l, ∀ r, dec (enc x ++ r) = some (x, r)) (rest : List Nat) :
    decManyBy dec l.length (encListBy enc l ++ rest) = some (l, rest) := by
  induction l with
  | nil => simp [encListBy, decManyBy]
  | cons x xs ih =>
    simp only [encListBy, List.length_cons, List.append_assoc, decManyBy,
      H x (List.mem_cons_self x xs),
      ih (fun y hy r => H y (List.mem_cons_of_mem x hy) r)]

theorem decList_enc {α : Type} (dec : List Nat → Option (α × List Nat))
    (enc : α → List Nat) (l : List α) (h : l.length < 2 ^ 64)
    (H : ∀ x ∈ l, ∀ r, dec (enc x ++ r) = some (x, r)) (rest : List Nat) :
    decList dec (encList enc l ++ rest) = some (l, rest) := by
  simp only [decList, encList, List.append_assoc]
  rw [decU64_cons h]
  exact decManyBy_enc dec enc l H rest

theorem decLogRange_enc {r : LogRange} (h : WfLogRange r) (rest : List Nat) :
    decLogRange (encLogRange r ++ rest) = some (r, rest) := by
  obtain ⟨h1, h2, h3, h4⟩ := h
  simp only [decLogRange, encLogRange, encU64, List.append_assoc,
    decU64_cons h1, decU64_cons h2, decU64_cons h3, decU64_cons h4,
    decBool_enc]

theorem decSnapshotRange_enc {s : SnapshotRange} (h : WfSnapshotRange s)
    (rest : List Nat) :
    decSnapshotRange (encSnapshotRange s ++ rest) = some (s, rest) := by
  obtain ⟨h1, h2, h3⟩ := h
  simp only [decSnapshotRange, encSnapshotRange, encU64, List.append_assoc,
    decU64_cons h1, decU64_cons h2, decU64_cons h3]

theorem decAddrEntry_enc {p : Nat × Addr} (h : WfAddrEntry p) (rest : List Nat) :
    decAddrEntry (encAddrEntry p ++ rest) = some (p, rest) := by
  obtain ⟨h1, h2⟩ := h
  simp only [decAddrEntry, encAddrEntry, encU64, List.append_assoc,
    decU64_cons h1, decBytes_enc h2]

theorem decDto_enc {d : RaftIndexDto} (h : WfDto d) (rest : List Nat) :
    decDto (encDto d ++ rest) = some (d, rest) := by
  obtain ⟨h1, h2, h3, h4, h5, h6, h7, h8, h9, h10, h11, h12⟩ := h
  have hmem : ∀ x ∈ d.member, ∀ r, decU64 (encU64 x ++ r) = some (x, r) :=
    fun x hx r => by simpa only [encU64] using decU64_cons (h4 x hx) r
  have hmac : ∀ x ∈ d.member_after_consensus, ∀ r,
      decU64 (encU64 x ++ r) = some (x, r) :=
    fun x hx r => by simpa only [encU64] using decU64_cons (h6 x hx) r
  have hna : ∀ p ∈ d.node_addrs, ∀ r,
      decAddrEntry (encAddrEntry p ++ r) = some (p, r) :=
    fun p hp r => decAddrEntry_enc (h8 p hp) r
  have hlg : ∀ x ∈ d.logs, ∀ r, decLogRange (encLogRange x ++ r) = some (x, r) :=
    fun x hx r => decLogRange_enc (h10 x hx) r
  have hsn : ∀ x ∈ d.snapshots, ∀ r,
      decSnapshotRange (encSnapshotRange x ++ r) = some (x, r) :=
    fun x hx r => decSnapshotRange_enc (h12 x hx) r
  simp only [decDto, encDto, encU64, List.append_assoc,
    decU64_cons h1, decU64_cons h2,
    decList_enc decU64 encU64 d.member h3 hmem,
    decList_enc decU64 encU64 d.member_after_consensus h5 hmac,
    decList_enc decAddrEntry encAddrEntry d.node_addrs h7 hna,
    decList_enc decLogRange encLogRange d.logs h9 hlg,
    decList_enc decSnapshotRange encSnapshotRange d.snapshots h11 hsn]

theorem decodeCatalog_enc {d : RaftIndexDto} (h : WfDto d) :
    decodeCatalog (encDto d) = some d := by
  have hd : decDto (encDto d) = some (d, []) := by
    simpa using decDto_enc h []
  simp [decodeCatalog, hd]

/-! ## File-layout lemmas -/

theorem header_pad_length (c : List Nat) :
    (c.take 8 ++ List.replicate (8 - c.length) 0).length = 8 := by
  simp
  omega

theorem take8_append {h8 : List Nat} (rest : List Nat) (hh : h8.length = 8) :
    (h8 ++ rest).take 8 = h8 := by
  rw [← hh, List.take_left]

theorem drop8_append {h8 : List Nat} (rest : List Nat) (hh : h8.length = 8) :
    (h8 ++ rest).drop 8 = rest := by
  rw [← hh, List.drop_left]

theorem writeAt_zero (c x : List Nat) : writeAt c 0 x = x ++ c.drop x.length := by
  simp [writeAt]

theorem drop8_writeAt8 (c x : List Nat) :
    (writeAt c 8 x).drop 8 = x ++ c.drop (8 + x.length) := by
  have h1 : writeAt c 8 x
      = (c.take 8 ++ List.replicate (8 - c.length) 0) ++ (x ++ c.drop (8 + x.length)) := by
    simp [writeAt]
  rw [h1, drop8_append _ (header_pad_length c)]

theorem writeAt8_header {h8 : List Nat} (rest x : List Nat) (hh : h8.length = 8) :
    writeAt (h8 ++ rest) 8 x = h8 ++ (x ++ rest.drop x.length) := by
  rw [writeAt, take8_append rest hh]
  have h1 : 8 - (h8 ++ rest).length = 0 := by simp [hh]
  have h2 : (h8 ++ rest).drop (8 + x.length) = rest.drop x.length := by
    rw [← List.drop_drop, drop8_append rest hh]
  rw [h1, h2]
  simp

theorem write_index_contents (m : RaftIndexInnerManager) (d : RaftIndexDto) :
    (m.write_index d).contents = writeAt m.contents 8 (recordBytes d) := by
  simp [RaftIndexInnerManager.write_index, writeIndexOps, replayOps]

theorem write_last_applied_contents (m : RaftIndexInnerManager) (n : Nat) :
    (m.write_last_applied_log n).contents
      = id_to_bin n ++ m.contents.drop 8 := by
  simp [RaftIndexInnerManager.write_last_applied_log, writeLastAppliedOps,
    replayOps, writeAt_zero, id_to_bin_length]

theorem contents_after_write_pair (m : RaftIndexInnerManager)
    (d : RaftIndexDto) (n : Nat) :
    ((m.write_index d).write_last_applied_log n).contents
      = id_to_bin n ++
          (recordBytes d ++ m.contents.drop (8 + (recordBytes d).length)) := by
  rw [write_last_applied_contents, write_index_contents, drop8_writeAt8]

theorem bin_to_id_round {n : Nat} (hn : n < 2 ^ 64) : bin_to_id (id_to_bin n) = n := by
  simp [bin_to_id, id_to_bin, beVal_beBytes8 hn]

theorem readRecord_recordBytes (d : RaftIndexDto)
    (hl : (encDto d).length < 2 ^ 32) (tl : List Nat) :
    readRecord (recordBytes d ++ tl) = some (encDto d) := by
  simp only [recordBytes, readRecord, List.append_assoc,
    takeN_pre (beBytes 4 (encDto d).length) (encDto d ++ tl)
      (beBytes_length 4 (encDto d).length),
    beVal_beBytes4 hl, takeN_pre (encDto d) tl rfl]

/-! ## Claims -/

/-- C1 counterexample: from a fresh manager, SaveHardState with current_term 5
succeeds, and a subsequent SaveHardState with the strictly smaller
current_term 4 also succeeds (no InvariantViolation) and leaves the stored
current_term at 4, so current_term decreased across two successful calls. -/
theorem save_hard_state_monotonicity_cex :
    hsRun1.result = Except.ok RaftIndexResponse.None ∧
    hsRun2.result = Except.ok RaftIndexResponse.None ∧
    (hsRun2.state.inner.map fun m => m.raft_index.current_term) = some 4 := by
  decide

/-- C1 (amended): write_hard_state performs no monotonicity check: whenever
the manager is initialized, SaveHardState succeeds and unconditionally sets
current_term and voted_for to the given values, even when current_term is
smaller than the stored one. -/
theorem save_hard_state_unconditional (s : RaftIndexManager)
    (m : RaftIndexInnerManager) (t v : Nat) (h : s.inner = some m) :
    (RaftIndexManager.handle false s (RaftIndexRequest.SaveHardState t v)).result
        = Except.ok RaftIndexResponse.None ∧
    ((RaftIndexManager.handle false s
        (RaftIndexRequest.SaveHardState t v)).state.inner.map
      fun mm => (mm.raft_index.current_term, mm.raft_index.voted_for))
        = some (t, v) := by
  simp [RaftIndexManager.handle, RaftIndexManager.write_hard_state, h,
    RaftIndexManager.write_index, RaftIndexInnerManager.write_index]

/-- C1 witness: the amended theorem applied to the fresh manager at
SaveHardState 4 0. -/
theorem save_hard_state_unconditional_witness :
    (RaftIndexManager.handle false initManager
        (RaftIndexRequest.SaveHardState 4 0)).result
      = Except.ok RaftIndexResponse.None ∧
    ((RaftIndexManager.handle false initManager
        (RaftIndexRequest.SaveHardState 4 0)).state.inner.map
      fun mm => (mm.raft_index.current_term, mm.raft_index.voted_for))
      = some (4, 0) :=
  save_hard_state_unconditional initManager freshInner 4 0 rfl

/-- C2 counterexample: a segment list breaking contiguity invariant 1 is
accepted by SaveLogs on a fresh manager: the request returns Ok(None), the
stored segment list is replaced by the invariant-breaking list, and the new
catalog is persisted (the performed file operations are the seek, the write
of the new catalog's framed record, and the flush of writeIndexOps). -/
theorem save_logs_invariant_cex :
    specSegmentsContiguous badLogs = false ∧
    badLogsRun.result = Except.ok RaftIndexResponse.None ∧
    (badLogsRun.state.inner.map fun m => m.raft_index.logs) = some badLogs ∧
    badLogsRun.ops = writeIndexOps { freshRaftIndex with logs := badLogs } := by
  decide

/-- C2 (amended): write_logs performs no invariant validation: whenever the
manager is initialized, SaveLogs succeeds, unconditionally replaces the
stored segment list with the given list, and persists the new catalog: the
file operations performed are exactly writeIndexOps of the new catalog (seek
to byte 8, write of its framed record, flush), and the file contents become
the old contents overwritten at byte 8 with the new catalog's record. -/
theorem save_logs_unconditional (s : RaftIndexManager)
    (m : RaftIndexInnerManager) (logs : List LogRange) (h : s.inner = some m) :
    (RaftIndexManager.handle false s (RaftIndexRequest.SaveLogs logs)).result
        = Except.ok RaftIndexResponse.None ∧
    ((RaftIndexManager.handle false s
        (RaftIndexRequest.SaveLogs logs)).state.inner.map
      fun mm => mm.raft_index.logs) = some logs ∧
    (RaftIndexManager.handle false s (RaftIndexRequest.SaveLogs logs)).ops
        = writeIndexOps { m.raft_index with logs := logs } ∧
    ((RaftIndexManager.handle false s
        (RaftIndexRequest.SaveLogs logs)).state.inner.map
      fun mm => mm.contents)
        = some (writeAt m.contents 8
            (recordBytes { m.raft_index with logs := logs })) := by
  simp [RaftIndexManager.handle, RaftIndexManager.write_logs, h,
    RaftIndexManager.write_index, RaftIndexInnerManager.write_index,
    writeIndexOps, replayOps]

/-- C2 witness: the amended theorem applied to the fresh manager at the
invariant-breaking list. -/
theorem save_logs_unconditional_witness :
    (RaftIndexManager.handle false initManager
        (RaftIndexRequest.SaveLogs badLogs)).result
      = Except.ok RaftIndexResponse.None ∧
    ((RaftIndexManager.handle false initManager
        (RaftIndexRequest.SaveLogs badLogs)).state.inner.map
      fun mm => mm.raft_index.logs) = some badLogs ∧
    (RaftIndexManager.handle false initManager
        (RaftIndexRequest.SaveLogs badLogs)).ops
      = writeIndexOps { freshInner.raft_index with logs := badLogs } ∧
    ((RaftIndexManager.handle false initManager
        (RaftIndexRequest.SaveLogs badLogs)).state.inner.map
      fun mm => mm.contents)
      = some (writeAt freshInner.contents 8
          (recordBytes { freshInner.raft_index with logs := badLogs })) :=
  save_logs_unconditional initManager freshInner badLogs rfl

/-- C3 counterexample: from a fresh manager, SaveLastAppliedLog 5 succeeds and
the subsequent SaveLastAppliedLog 3 with 3 < 5 also succeeds and sets the
stored last_applied_log to 3. -/
theorem save_last_applied_monotonicity_cex :
    lalRun1.result = Except.ok RaftIndexResponse.None ∧
    lalRun2.result = Except.ok RaftIndexResponse.None ∧
    (lalRun2.state.inner.map fun m => m.last_applied_log) = some 3 := by
  decide

/-- C3 (amended): write_last_applied_log performs no monotonicity check:
whenever the manager is initialized, SaveLastAppliedLog n succeeds and
unconditionally sets last_applied_log to n, even when n is smaller than the
previous value. -/
theorem save_last_applied_unconditional (s : RaftIndexManager)
    (m : RaftIndexInnerManager) (n : Nat) (h : s.inner = some m) :
    (RaftIndexManager.handle false s
        (RaftIndexRequest.SaveLastAppliedLog n)).result
        = Except.ok RaftIndexResponse.None ∧
    ((RaftIndexManager.handle false s
        (RaftIndexRequest.SaveLastAppliedLog n)).state.inner.map
      fun mm => mm.last_applied_log) = some n := by
  simp [RaftIndexManager.handle, RaftIndexManager.write_last_applied_log, h,
    RaftIndexInnerManager.write_last_applied_log]

/-- C3 witness: the amended theorem applied to the fresh manager at
SaveLastAppliedLog 3. -/
theorem save_last_applied_unconditional_witness :
    (RaftIndexManager.handle false initManager
        (RaftIndexRequest.SaveLastAppliedLog 3)).result
      = Except.ok RaftIndexResponse.None ∧
    ((RaftIndexManager.handle false initManager
        (RaftIndexRequest.SaveLastAppliedLog 3)).state.inner.map
      fun mm => mm.last_applied_log) = some 3 :=
  save_last_applied_unconditional initManager freshInner 3 rfl

/-- C4 counterexample: with an injected I/O failure, SaveLastAppliedLog on an
initialized manager still returns the success response Ok(None), the actor is
not stopped, and the inner manager is retained — the manager does not
transition to a Failed state. -/
theorem io_error_ack_cex :
    (RaftIndexManager.handle true initManager
        (RaftIndexRequest.SaveLastAppliedLog 7)).result
      = Except.ok RaftIndexResponse.None ∧
    (RaftIndexManager.handle true initManager
        (RaftIndexRequest.SaveLastAppliedLog 7)).state.stopped = false ∧
    (RaftIndexManager.handle true initManager
        (RaftIndexRequest.SaveLastAppliedLog 7)).state.inner.isSome = true := by
  decide

/-- C4 (amended): on an I/O error the manager logs the error and keeps
running instead of transitioning to a Failed state: for every request on an
initialized manager the actor's stopped flag is unchanged and no file
operation takes effect, and for every mutating request the request is still
acknowledged with Ok(None) while the inner manager is retained holding
exactly the in-memory mutation (which the source assigns before the first
file await), so memory and disk diverge. -/
theorem io_error_keeps_running (s : RaftIndexManager)
    (m : RaftIndexInnerManager) (req : RaftIndexRequest)
    (h : s.inner = some m) :
    (RaftIndexManager.handle true s req).state.stopped = s.stopped ∧
    (RaftIndexManager.handle true s req).ops = [] ∧
    (isMutating req = true →
      (RaftIndexManager.handle true s req).result
          = Except.ok RaftIndexResponse.None ∧
      (RaftIndexManager.handle true s req).state.inner
        = some
            (match req with
              | RaftIndexRequest.SaveLastAppliedLog n =>
                  { m with last_applied_log := n }
              | RaftIndexRequest.SaveLogs logs =>
                  { m with raft_index := { m.raft_index with logs := logs } }
              | RaftIndexRequest.SaveSnapshots sn =>
                  { m with raft_index := { m.raft_index with snapshots := sn } }
              | RaftIndexRequest.SaveMember mem mac na =>
                  { m with raft_index :=
                      { m.raft_index with
                          member := mem
                          member_after_consensus := mac
                          node_addrs := match na with
                            | some x => x
                            | none => m.raft_index.node_addrs } }
              | RaftIndexRequest.SaveNodeAddr na =>
                  { m with raft_index :=
                      { m.raft_index with node_addrs := na } }
              | RaftIndexRequest.AddNodeAddr i a =>
                  { m with raft_index :=
                      { m.raft_index with
                          node_addrs := addrInsert m.raft_index.node_addrs i a } }
              | RaftIndexRequest.SaveHardState t v =>
                  { m with raft_index :=
                      { m.raft_index with current_term := t, voted_for := v } }
              | _ => m)) := by
  cases req <;>
    simp_all [RaftIndexManager.handle, RaftIndexManager.load_index_info,
      RaftIndexManager.write_logs, RaftIndexManager.write_snapshots,
      RaftIndexManager.write_last_applied_log, RaftIndexManager.write_member,
      RaftIndexManager.write_node_addr, RaftIndexManager.add_node_addr,
      RaftIndexManager.write_hard_state, RaftIndexManager.write_index,
      isMutating]

/-- C4 witness: the amended theorem applied to the fresh manager at
SaveHardState 9 1 under an injected I/O failure: the actor is not stopped, no
file operation takes effect, the request is acknowledged with Ok(None), and
the inner manager retains the in-memory hard-state mutation. -/
theorem io_error_keeps_running_witness :
    (RaftIndexManager.handle true initManager
        (RaftIndexRequest.SaveHardState 9 1)).state.stopped
      = initManager.stopped ∧
    (RaftIndexManager.handle true initManager
        (RaftIndexRequest.SaveHardState 9 1)).ops = [] ∧
    (isMutating (RaftIndexRequest.SaveHardState 9 1) = true →
      (RaftIndexManager.handle true initManager
          (RaftIndexRequest.SaveHardState 9 1)).result
        = Except.ok RaftIndexResponse.None ∧
      (RaftIndexManager.handle true initManager
          (RaftIndexRequest.SaveHardState 9 1)).state.inner
        = some { freshInner with raft_index :=
            { freshInner.raft_index with current_term := 9, voted_for := 1 } }) :=
  io_error_keeps_running initManager freshInner
    (RaftIndexRequest.SaveHardState 9 1) rfl

/-- C5 counterexample: the file operations performed by SaveLastAppliedLog on
an initialized manager are exactly a seek and a write, with no flush after
the write, so the request is acknowledged without a flush. -/
theorem save_last_applied_no_flush_cex :
    (RaftIndexManager.handle false initManager
        (RaftIndexRequest.SaveLastAppliedLog 1)).ops = writeLastAppliedOps 1 ∧
    endsFlushed (writeLastAppliedOps 1) = false := by
  decide

/-- C5 (amended): for every request on an initialized manager, the performed
file operations end with a flush after the last write exactly when the
request is not SaveLastAppliedLog: the catalog-rewriting mutations flush
before acknowledging, while SaveLastAppliedLog writes the 8-byte header and
acknowledges without flushing. -/
theorem flush_only_on_catalog_write (s : RaftIndexManager)
    (m : RaftIndexInnerManager) (req : RaftIndexRequest)
    (h : s.inner = some m) :
    endsFlushed (RaftIndexManager.handle false s req).ops
      = !(isSaveLastAppliedLog req) := by
  cases req <;>
    simp_all [RaftIndexManager.handle, RaftIndexManager.load_index_info,
      RaftIndexManager.write_logs, RaftIndexManager.write_snapshots,
      RaftIndexManager.write_last_applied_log, RaftIndexManager.write_member,
      RaftIndexManager.write_node_addr, RaftIndexManager.add_node_addr,
      RaftIndexManager.write_hard_state, RaftIndexManager.write_index,
      isSaveLastAppliedLog, endsFlushed, writeIndexOps, writeLastAppliedOps]

/-- C5 witness: the amended theorem applied to the fresh manager at
SaveLastAppliedLog 1, where no flush follows the write. -/
theorem flush_only_on_catalog_write_witness :
    endsFlushed (RaftIndexManager.handle false initManager
        (RaftIndexRequest.SaveLastAppliedLog 1)).ops
      = !(isSaveLastAppliedLog (RaftIndexRequest.SaveLastAppliedLog 1)) :=
  flush_only_on_catalog_write initManager freshInner
    (RaftIndexRequest.SaveLastAppliedLog 1) rfl

/-- C6: write-then-reload round trip. For every starting inner manager, after
write_index d and write_last_applied_log n, running init on the resulting
file contents succeeds and loads exactly last_applied_log n and catalog d
(for values representable in the source's u64/u32 fields). -/
theorem index_write_reload_roundtrip (m : RaftIndexInnerManager)
    (d : RaftIndexDto) (n : Nat) (hw : WfDto d) (hn : n < 2 ^ 64)
    (hl : (encDto d).length < 2 ^ 32) :
    RaftIndexInnerManager.init (((m.write_index d).write_last_applied_log n).contents)
      = Except.ok
          { contents := ((m.write_index d).write_last_applied_log n).contents
            raft_index := d
            last_applied_log := n } := by
  rw [contents_after_write_pair]
  generalize m.contents.drop (8 + (recordBytes d).length) = tl
  have hlen : (id_to_bin n ++ (recordBytes d ++ tl)).length
      = 8 + (recordBytes d ++ tl).length := by
    simp [id_to_bin_length]
  have hpad : 8 - (8 + (recordBytes d ++ tl).length) = 0 := by omega
  simp only [RaftIndexInnerManager.init, hlen]
  rw [if_neg (by omega : ¬(8 + (recordBytes d ++ tl).length = 0))]
  simp only [hpad, List.replicate_zero, List.append_nil,
    take8_append (recordBytes d ++ tl) (id_to_bin_length n),
    drop8_append (recordBytes d ++ tl) (id_to_bin_length n),
    readRecord_recordBytes d hl tl, decodeCatalog_enc hw, bin_to_id_round hn]

/-- C6 witness: the round trip at the fresh inner manager with a concrete
nontrivial catalog and last_applied_log 7. -/
theorem index_write_reload_roundtrip_witness :
    WfDto sampleDto ∧
    RaftIndexInnerManager.init
        (((freshInner.write_index sampleDto).write_last_applied_log 7).contents)
      = Except.ok
          { contents :=
              ((freshInner.write_index sampleDto).write_last_applied_log 7).contents
            raft_index := sampleDto
            last_applied_log := 7 } :=
  ⟨by decide,
    index_write_reload_roundtrip freshInner sampleDto 7 (by decide) (by decide)
      (by decide)⟩

/-- C7: init on a zero-length file succeeds with last_applied_log 0 and a
catalog holding exactly one segment with id 0, start_index 0, pre_term 0,
record_count 0, is_close false, mark_remove false, empty snapshot list and
empty membership, and a subsequent LoadIndexInfo returns exactly that. -/
theorem fresh_init_load_index_info :
    RaftIndexInnerManager.init [] = Except.ok freshInner ∧
    (RaftIndexManager.handle false (RaftIndexManager.initFrom [])
        RaftIndexRequest.LoadIndexInfo).result
      = Except.ok (RaftIndexResponse.RaftIndexInfo
          { current_term := 0
            voted_for := 0
            member := []
            member_after_consensus := []
            node_addrs := []
            logs := [{ id := 0, start_index := 0, pre_term := 0,
                       record_count := 0, is_close := false,
                       mark_remove := false }]
            snapshots := [] } 0) := by
  decide

/-- C8 counterexample: the reachable inner manager that wrote the longer
two-segment catalog and then rewrote the shorter fresh catalog has file
contents that are not exactly the 8-byte header followed by the current
catalog record: a stale tail of the earlier record remains. -/
theorem index_not_exact_header_record_cex :
    Reach staleInner ∧
    staleInner.contents
      ≠ id_to_bin staleInner.last_applied_log
          ++ recordBytes staleInner.raft_index := by
  constructor
  · exact Reach.stepIndex freshRaftIndex (Reach.stepIndex dtoTwoLogs Reach.fresh)
  · decide

/-- C8 (amended): after any sequence of successful operations the index file
contents begin with the 8-byte big-endian last_applied_log header followed at
byte 8 by the length-prefixed record of the current catalog, possibly
followed by stale trailing bytes left over from an earlier, longer catalog
record (write_index never truncates the file). -/
theorem reachable_header_record {m : RaftIndexInnerManager} (h : Reach m) :
    ∃ tail, m.contents
      = id_to_bin m.last_applied_log ++ (recordBytes m.raft_index ++ tail) := by
  induction h with
  | fresh => exact ⟨[], by decide⟩
  | stepIndex d hm ih =>
    rename_i mp
    obtain ⟨t, ht⟩ := ih
    refine ⟨(recordBytes mp.raft_index ++ t).drop (recordBytes d).length, ?_⟩
    rw [write_index_contents, ht,
      writeAt8_header (recordBytes mp.raft_index ++ t) (recordBytes d)
        (id_to_bin_length mp.last_applied_log)]
    rfl
  | stepLast n hm ih =>
    rename_i mp
    obtain ⟨t, ht⟩ := ih
    refine ⟨t, ?_⟩
    rw [write_last_applied_contents, ht,
      drop8_append (recordBytes mp.raft_index ++ t)
        (id_to_bin_length mp.last_applied_log)]
    rfl

/-- C8 witness: the amended theorem applied to the fresh inner manager, which
is reachable by construction. -/
theorem reachable_header_record_witness :
    ∃ tail, freshInner.contents
      = id_to_bin freshInner.last_applied_log
          ++ (recordBytes freshInner.raft_index ++ tail) :=
  reachable_header_record Reach.fresh

/-- C9 counterexample: before initialization, LoadHardState does not return a
NotInitialized error; it returns the normal success response Ok(None). -/
theorem uninit_load_hard_state_cex :
    (RaftIndexManager.handle false { inner := none, stopped := false }
        RaftIndexRequest.LoadHardState).result
      = Except.ok RaftIndexResponse.None := by
  rfl

/-- C9 (amended): before initialization, LoadIndexInfo and every Save request
fail with the inner-is-empty error, while LoadHardState and LoadMember return
Ok(None) and GetTargetAddr returns Ok(TargetAddr(none)) as normal non-error
responses. -/
theorem uninit_request_results (req : RaftIndexRequest) :
    (RaftIndexManager.handle false { inner := none, stopped := false } req).result
      = match req with
        | RaftIndexRequest.LoadHardState => Except.ok RaftIndexResponse.None
        | RaftIndexRequest.LoadMember => Except.ok RaftIndexResponse.None
        | RaftIndexRequest.GetTargetAddr _ =>
            Except.ok (RaftIndexResponse.TargetAddr none)
        | _ => Except.error innerIsEmptyError := by
  cases req <;> rfl

/-- C10: SaveMember with node_addr absent replaces only member and
member_after_consensus; node_addrs, the segment list, the snapshot list, the
hard state, and last_applied_log are all unchanged. -/
theorem save_member_none_frame (s : RaftIndexManager)
    (m : RaftIndexInnerManager) (mem mac : List Nat) (h : s.inner = some m) :
    (RaftIndexManager.handle false s
        (RaftIndexRequest.SaveMember mem mac none)).result
        = Except.ok RaftIndexResponse.None ∧
    ((RaftIndexManager.handle false s
        (RaftIndexRequest.SaveMember mem mac none)).state.inner.map
      fun mm =>
        (mm.raft_index.member, mm.raft_index.member_after_consensus,
          mm.raft_index.node_addrs, mm.raft_index.logs,
          mm.raft_index.snapshots, mm.raft_index.current_term,
          mm.raft_index.voted_for, mm.last_applied_log))
      = some (mem, mac, m.raft_index.node_addrs, m.raft_index.logs,
          m.raft_index.snapshots, m.raft_index.current_term,
          m.raft_index.voted_for, m.last_applied_log) := by
  simp [RaftIndexManager.handle, RaftIndexManager.write_member, h,
    RaftIndexManager.write_index, RaftIndexInnerManager.write_index]

/-- C10 witness: the frame theorem applied to the fresh manager at
SaveMember [1, 2] [3] none. -/
theorem save_member_none_frame_witness :
    (RaftIndexManager.handle false initManager
        (RaftIndexRequest.SaveMember [1, 2] [3] none)).result
      = Except.ok RaftIndexResponse.None ∧
    ((RaftIndexManager.handle false initManager
        (RaftIndexRequest.SaveMember [1, 2] [3] none)).state.inner.map
      fun mm =>
        (mm.raft_index.member, mm.raft_index.member_after_consensus,
          mm.raft_index.node_addrs, mm.raft_index.logs,
          mm.raft_index.snapshots, mm.raft_index.current_term,
          mm.raft_index.voted_for, mm.last_applied_log))
      = some ([1, 2], [3], freshInner.raft_index.node_addrs,
          freshInner.raft_index.logs, freshInner.raft_index.snapshots,
          freshInner.raft_index.current_term, freshInner.raft_index.voted_for,
          freshInner.last_applied_log) :=
  save_member_none_frame initManager freshInner [1, 2] [3] rfl

end Rnacos
